import Mathlib

/-!
Verification of the q2-PSEA action module (`q2_PSEA/actions/psea.py`)
against its natural-language specification.

The module has two parts:
* `process_scores(scores, pairs)` — a pure transform restricting a score
  matrix to the replicate columns mentioned in the pair list and rescaling
  every value by `log2(clamp_1(v + 2^3)) - 3`;
* `make_psea_table(...)` — the orchestrating action: a (misspelled) timer
  call, validation assertions, directory creation, a per-pair loop that
  accumulates spline-fit data and the list of used pairs, and final calls
  to the two visualization actions.

Score matrices are embedded as a structure with a row-identifier list, a
column-name list and a total value function; real Python floats are
modelled as real numbers for the logarithmic transform and as an arbitrary
linear order for the structural/orchestration claims.
-/

namespace Q2PSEA

/-- A replicate pair `(baseline, treatment)`, as parsed from one line of the
pairs file. -/
abbrev Pair := String × String

/-- A score matrix (pandas `DataFrame`): rows keyed by feature identifier,
columns keyed by replicate name, and a total value function. The cells of
the matrix are the values `data r c` for `r ∈ rows` and `c ∈ cols`. -/
structure DataFrame (α : Type) where
  rows : List String
  cols : List String
  data : String → String → α

/-- Column selection `df.loc[:, cs]`: restricts the matrix to the columns
`cs` in that order; fails (pandas `KeyError`) when a requested column is
absent. -/
def selectCols {α : Type} (df : DataFrame α) (cs : List String) :
    Option (DataFrame α) :=
  if ∀ c ∈ cs, c ∈ df.cols then
    some { rows := df.rows, cols := cs, data := df.data }
  else
    none

/-- Apply a function to every cell of the matrix (one `DataFrame.apply` of an
elementwise operation in the source). -/
def mapValues {α : Type} (df : DataFrame α) (f : α → α) : DataFrame α :=
  { rows := df.rows, cols := df.cols, data := fun r c => f (df.data r c) }

/-- The nested loop of `process_scores` collecting every replicate name
mentioned anywhere in the pair list (`reps_list.append(rep)`). -/
def collectReps (pairs : List Pair) : List String :=
  pairs.foldl (fun acc p => acc ++ [p.1, p.2]) []

/-- Lexicographic comparison of character lists by code point, the string
order `np.unique` sorts by. -/
def charListLe : List Char → List Char → Bool
  | [], _ => true
  | _ :: _, [] => false
  | a :: as, b :: bs =>
    if a.toNat < b.toNat then true
    else if b.toNat < a.toNat then false
    else charListLe as bs

/-- Code-point lexicographic order on strings. -/
def strLe (a b : String) : Bool := charListLe a.data b.data

/-- Model of `np.unique` on a list of strings: the sorted list of the
distinct elements. -/
def npUnique (l : List String) : List String :=
  @List.insertionSort String (fun a b => strLe a b = true)
    (fun a b => inferInstanceAs (Decidable (strLe a b = true))) l.dedup

/-- The clamping step of `process_scores`: `lambda val: 1 if val < 1 else val`. -/
noncomputable def clampOne (v : ℝ) : ℝ :=
  if v < 1 then 1 else v

/-- Model of `process_scores(scores, pairs)` (psea.py lines 177-202):
collect the unique replicates of `pairs`, restrict the matrix to those
columns, add `power = 2^3` to every value, clamp below at `1`, and apply
`log` base `2` minus the offset `3`. -/
noncomputable def process_scores (scores : DataFrame ℝ) (pairs : List Pair) :
    Option (DataFrame ℝ) :=
  let power : ℝ := 2 ^ (3 : ℕ)
  let reps_list := npUnique (collectReps pairs)
  (selectCols scores reps_list).map fun df =>
    let step1 := mapValues df (fun v => power + v)
    let step2 := mapValues step1 clampOne
    mapValues step2 (fun v => Real.logb 2 v - 3)

deriving instance DecidableEq for Except

/-- Python exceptions that the modelled code paths can raise. -/
inductive PyError where
  | attributeError (attr : String)
  | assertionError (msg : String)
  | keyError (msg : String)
deriving DecidableEq

/-- Modelled from the spec: the attributes exposed by Python's standard
`time` module that are relevant here. The module exposes `perf_counter`;
the misspelled name `perf_couter` used by the source is absent, so looking
it up raises an `AttributeError` (spec §9: "the source calls a timing
function misspelled in a way that would raise an attribute error"). -/
def timeModuleAttrs : List String := ["time", "perf_counter", "process_time", "sleep", "monotonic"]

/-- Python attribute lookup on the `time` module: `time.<attr>` raises
`AttributeError` when `attr` is not an attribute of the module. -/
def getattrTime (attr : String) : Except PyError Unit :=
  if attr ∈ timeModuleAttrs then Except.ok () else Except.error (PyError.attributeError attr)

/-- Modelled from the spec: `splines.SPLINE_TYPES`, the fixed enumeration of
spline strategy names (the `splines` module is part of the repository but
not among the given sources; spec §4.2 fixes the set
to r-smooth, py-smooth and cubic). -/
def SPLINE_TYPES : List String := ["r-smooth", "py-smooth", "cubic"]

/-- Model of psea.py lines 45-50: the two validation assertions followed by
`os.mkdir(table_dir)`. The filesystem is the list of existing paths; on
success the created directory is appended, and an assertion failure leaves
the filesystem untouched. -/
def validateAndMkdir (spline_type table_dir : String) (dirs : List String) :
    Except PyError (List String) :=
  if spline_type ∈ SPLINE_TYPES then
    if table_dir ∈ dirs then
      Except.error (PyError.assertionError
        ("'" ++ table_dir ++ "' already exists! Please move or remove this directory."))
    else
      Except.ok (dirs ++ [table_dir])
  else
    Except.error (PyError.assertionError
      ("'" ++ spline_type ++ "' is not a valid spline method!"))

/-- Model of the opening phase of `make_psea_table` (psea.py lines 40-50):
the misspelled timer call `time.perf_couter()`, then (after the two
non-failing `ctx.get_action` lookups) validation and directory creation. -/
def makePseaStart (spline_type table_dir : String) (dirs : List String) :
    Except PyError (List String) :=
  match getattrTime "perf_couter" with
  | Except.error e => Except.error e
  | Except.ok _ => validateAndMkdir spline_type table_dir dirs

/-- The label `f"{pair[0]}~{pair[1]}"` (the `table_prefix` of the loop body)
used for result-table names, spline-record rows and plot titles. -/
def pairLabel (p : Pair) : String := p.1 ++ "~" ++ p.2

/-- Model of `data_sorted = processed_scores.loc[:, pair].sort_values(by=pair[0])`:
the row identifiers of the matrix sorted by their value in the baseline
column `b`. -/
def sortedRows {α : Type} [LinearOrder α] (df : DataFrame α) (b : String) :
    List String :=
  @List.insertionSort String (fun r s => df.data r b ≤ df.data s b)
    (fun r s => inferInstanceAs (Decidable (df.data r b ≤ df.data s b))) df.rows

/-- A pandas `Series`: a data sequence together with its index of feature
identifiers. -/
structure Series (α : Type) where
  index : List String
  data : List α
deriving DecidableEq

/-- Model of psea.py lines 97-105: `maxZ`, the row-wise maximum over the
pair's two columns of the sorted selection, as a series indexed by
`data_sorted.index`. -/
def maxZSeries {α : Type} [LinearOrder α] (df : DataFrame α) (p : Pair) :
    Series α :=
  { index := sortedRows df p.1,
    data := (sortedRows df p.1).map (fun r => max (df.data r p.1) (df.data r p.2)) }

/-- The numeric sequence `x` (resp. `y`) of the loop body: the baseline
(resp. treatment) column of the sorted selection. -/
def colValues {α : Type} [LinearOrder α] (df : DataFrame α) (p : Pair) (c : String) :
    List α :=
  (sortedRows df p.1).map (fun r => df.data r c)

/-- Model of psea.py lines 106-108: `deltaZ = pd.Series(y - yfit,
index=data_sorted.index)`, where `yfit` is the spline collaborator's output
on `(x, y)`. -/
def deltaZSeries {α : Type} [LinearOrder α] [Sub α]
    (splineFit : List α → List α → List α) (df : DataFrame α) (p : Pair) :
    Series α :=
  { index := sortedRows df p.1,
    data := List.zipWith (fun a b => a - b)
      (colValues df p p.2)
      (splineFit (colValues df p p.1) (colValues df p p.2)) }

/-- The accumulating state of the per-pair loop: the three lists of
`pair_spline_dict` (keys "x", "y", "pair"), `used_pairs`, and `titles`. -/
structure LoopState (α : Type) where
  x : List α
  y : List α
  pairLabels : List String
  usedPairs : List Pair
  titles : List String
deriving DecidableEq

/-- The loop state before the first iteration (psea.py lines 72-75). -/
def initState (α : Type) : LoopState α :=
  { x := [], y := [], pairLabels := [], usedPairs := [], titles := [] }

/-- Model of one iteration of the per-pair loop (psea.py lines 82-133), for
the state it accumulates: select the pair's two columns (pandas `KeyError`
when absent) and sort by the baseline column, extract `x` and `y`, obtain
`yfit` from the spline collaborator, extend the spline record by
`(x, yfit, label*len(x))`, append the pair to `used_pairs` and the label to
`titles`. The call to the external enrichment engine and the result-table
write have no effect on this state. -/
def loopStep {α : Type} [LinearOrder α]
    (splineFit : List α → List α → List α) (df : DataFrame α)
    (st : LoopState α) (p : Pair) : Except PyError (LoopState α) :=
  if p.1 ∈ df.cols ∧ p.2 ∈ df.cols then
    let xs := colValues df p p.1
    let ys := colValues df p p.2
    let yfit := splineFit xs ys
    Except.ok
      { x := st.x ++ xs,
        y := st.y ++ yfit,
        pairLabels := st.pairLabels ++ List.replicate xs.length (pairLabel p),
        usedPairs := st.usedPairs ++ [p],
        titles := st.titles ++ [pairLabel p] }
  else
    Except.error (PyError.keyError (pairLabel p))

/-- Model of psea.py lines 73 and 79-80: `taxa_access` starts as
"species_name" and is overwritten with "ID" when `species_taxa_file` is
falsy (the empty string). -/
def resolveTaxaAccess (species_taxa_file : String) : String :=
  let t := "species_name"
  if species_taxa_file = "" then "ID" else t

/-- The arguments of the `zscatter` call (psea.py lines 149-158) determined
by this component. The pass-through numeric threshold and the wrapped score
artifact are not modelled; the two intermediate files are named by their
basenames inside the temporary directory. -/
structure ZscatterCall where
  pairsFileName : String
  splineFileName : String
  pValAccess : String
  lePepsAccess : String
  taxaAccess : String
  highlightData : String
deriving DecidableEq

/-- The arguments of the `volcano` call (psea.py lines 160-168) determined
by this component; the numeric thresholds are not modelled. -/
structure VolcanoCall where
  xyDir : String
  xyAccess : List String
  taxaAccess : String
  xyLabels : List String
  titles : List String
deriving DecidableEq

/-- Everything the main body computes that the claims refer to: the final
loop state and the argument records of the two visualization calls. -/
structure BodyResult (α : Type) where
  state : LoopState α
  zscatterArgs : ZscatterCall
  volcanoArgs : VolcanoCall
deriving DecidableEq

/-- Model of the body of `make_psea_table` after preprocessing (psea.py
lines 72-168): resolve `taxa_access`, run the per-pair loop over the
restricted/filtered matrix `df`, and assemble the argument records of the
two visualization calls. -/
def makePseaBody {α : Type} [LinearOrder α]
    (splineFit : List α → List α → List α) (df : DataFrame α)
    (pairs : List Pair) (species_taxa_file table_dir : String) :
    Except PyError (BodyResult α) := do
  let taxa_access := resolveTaxaAccess species_taxa_file
  let st ← pairs.foldlM (loopStep splineFit df) (initState α)
  Except.ok
    { state := st,
      zscatterArgs :=
        { pairsFileName := "used_pairs.tsv",
          splineFileName := "spline_data.tsv",
          pValAccess := "p.adjust",
          lePepsAccess := "core_enrichment",
          taxaAccess := taxa_access,
          highlightData := table_dir },
      volcanoArgs :=
        { xyDir := table_dir,
          xyAccess := ["NES", "p.adjust"],
          taxaAccess := taxa_access,
          xyLabels := ["Enrichment score", "Adjusted p-values"],
          titles := st.titles } }

end Q2PSEA

namespace Q2PSEA

theorem mem_foldl_append (a : String) :
    ∀ (l : List Pair) (acc : List String),
      a ∈ l.foldl (fun acc p => acc ++ [p.1, p.2]) acc ↔
        a ∈ acc ∨ ∃ p ∈ l, a = p.1 ∨ a = p.2 := by
  intro l
  induction l with
  | nil => simp
  | cons p t ih =>
      intro acc
      rw [List.foldl_cons, ih]
      constructor
      · rintro (h | ⟨q, hq, hqa⟩)
        · rw [List.mem_append] at h
          rcases h with h | h
          · exact Or.inl h
          · refine Or.inr ⟨p, List.mem_cons_self p t, ?_⟩
            simpa using h
        · exact Or.inr ⟨q, List.mem_cons_of_mem p hq, hqa⟩
      · rintro (h | ⟨q, hq, hqa⟩)
        · exact Or.inl (List.mem_append_left _ h)
        · rcases List.mem_cons.mp hq with rfl | hq
          · refine Or.inl (List.mem_append_right _ ?_)
            simpa using hqa
          · exact Or.inr ⟨q, hq, hqa⟩

theorem mem_collectReps (a : String) (pairs : List Pair) :
    a ∈ collectReps pairs ↔ ∃ p ∈ pairs, a = p.1 ∨ a = p.2 := by
  rw [collectReps, mem_foldl_append]
  simp

theorem mem_npUnique (a : String) (l : List String) :
    a ∈ npUnique l ↔ a ∈ l := by
  rw [npUnique]
  rw [List.mem_insertionSort]
  exact List.mem_dedup

theorem npUnique_nodup (l : List String) : (npUnique l).Nodup := by
  rw [npUnique]
  exact ((List.perm_insertionSort _ _).nodup_iff).mpr l.nodup_dedup

theorem length_sortedRows {α : Type} [LinearOrder α] (df : DataFrame α) (b : String) :
    (sortedRows df b).length = df.rows.length :=
  List.length_insertionSort _ _

theorem length_colValues {α : Type} [LinearOrder α] (df : DataFrame α) (p : Pair)
    (c : String) : (colValues df p c).length = df.rows.length := by
  rw [colValues, List.length_map, length_sortedRows]

theorem foldlM_loopStep_ok {α : Type} [LinearOrder α]
    (splineFit : List α → List α → List α) (df : DataFrame α) :
    ∀ (pairs : List Pair) (st₀ st : LoopState α),
      List.foldlM (loopStep splineFit df) st₀ pairs = Except.ok st →
      st.x = st₀.x ++ (pairs.map (fun p => colValues df p p.1)).flatten ∧
      st.y = st₀.y ++ (pairs.map (fun p =>
        splineFit (colValues df p p.1) (colValues df p p.2))).flatten ∧
      st.pairLabels = st₀.pairLabels ++ (pairs.map (fun p =>
        List.replicate (colValues df p p.1).length (pairLabel p))).flatten ∧
      st.usedPairs = st₀.usedPairs ++ pairs ∧
      st.titles = st₀.titles ++ pairs.map pairLabel := by
  intro pairs
  induction pairs with
  | nil =>
      intro st₀ st h
      simp only [List.foldlM_nil] at h
      have h2 : Except.ok (ε := PyError) st₀ = Except.ok st := h
      rw [Except.ok.injEq] at h2
      subst h2
      simp
  | cons p t ih =>
      intro st₀ st h
      rw [List.foldlM_cons] at h
      cases hstep : loopStep splineFit df st₀ p with
      | error e =>
          rw [hstep] at h
          exact absurd h (by simp [Bind.bind, Except.bind])
      | ok st₁ =>
          rw [hstep] at h
          have h' : List.foldlM (loopStep splineFit df) st₁ t = Except.ok st := h
          obtain ⟨hx, hy, hl, hu, ht⟩ := ih st₁ st h'
          rw [loopStep] at hstep
          by_cases hc : p.1 ∈ df.cols ∧ p.2 ∈ df.cols
          · rw [if_pos hc] at hstep
            cases hstep
            refine ⟨?_, ?_, ?_, ?_, ?_⟩ <;>
              simp [hx, hy, hl, hu, ht, List.append_assoc]
          · rw [if_neg hc] at hstep
            exact absurd hstep (by simp)

theorem makePseaBody_ok {α : Type} [LinearOrder α]
    (splineFit : List α → List α → List α) (df : DataFrame α)
    (pairs : List Pair) (stf td : String) (res : BodyResult α)
    (h : makePseaBody splineFit df pairs stf td = Except.ok res) :
    List.foldlM (loopStep splineFit df) (initState α) pairs = Except.ok res.state ∧
    res.zscatterArgs =
      { pairsFileName := "used_pairs.tsv",
        splineFileName := "spline_data.tsv",
        pValAccess := "p.adjust",
        lePepsAccess := "core_enrichment",
        taxaAccess := resolveTaxaAccess stf,
        highlightData := td } ∧
    res.volcanoArgs =
      { xyDir := td,
        xyAccess := ["NES", "p.adjust"],
        taxaAccess := resolveTaxaAccess stf,
        xyLabels := ["Enrichment score", "Adjusted p-values"],
        titles := res.state.titles } := by
  rw [makePseaBody] at h
  cases hfold : List.foldlM (loopStep splineFit df) (initState α) pairs with
  | error e =>
      rw [hfold] at h
      exact absurd h (by simp [Bind.bind, Except.bind])
  | ok st =>
      rw [hfold] at h
      have h' : Except.ok (ε := PyError)
          ({ state := st,
             zscatterArgs :=
               { pairsFileName := "used_pairs.tsv",
                 splineFileName := "spline_data.tsv",
                 pValAccess := "p.adjust",
                 lePepsAccess := "core_enrichment",
                 taxaAccess := resolveTaxaAccess stf,
                 highlightData := td },
             volcanoArgs :=
               { xyDir := td,
                 xyAccess := ["NES", "p.adjust"],
                 taxaAccess := resolveTaxaAccess stf,
                 xyLabels := ["Enrichment score", "Adjusted p-values"],
                 titles := st.titles } } : BodyResult α) = Except.ok res := h
      rw [Except.ok.injEq] at h'
      subst h'
      exact ⟨rfl, rfl, rfl⟩

/-- When every replicate mentioned in `pairs` is a column of `scores`,
`process_scores` succeeds and returns the explicitly described matrix. -/
theorem process_scores_eq (scores : DataFrame ℝ) (pairs : List Pair)
    (h : ∀ p ∈ pairs, p.1 ∈ scores.cols ∧ p.2 ∈ scores.cols) :
    process_scores scores pairs =
      some { rows := scores.rows,
             cols := npUnique (collectReps pairs),
             data := fun r c =>
               Real.logb 2 (clampOne (2 ^ (3 : ℕ) + scores.data r c)) - 3 } := by
  have hall : ∀ c ∈ npUnique (collectReps pairs), c ∈ scores.cols := by
    intro c hc
    rw [mem_npUnique, mem_collectReps] at hc
    obtain ⟨p, hp, hcp⟩ := hc
    rcases hcp with rfl | rfl
    · exact (h p hp).1
    · exact (h p hp).2
  rw [process_scores, selectCols]
  rw [if_pos hall]
  rfl

/-- Inversion: whatever `process_scores` returns successfully has the rows of
the input, the unique replicate list as columns, and the fully rescaled data
function. -/
theorem process_scores_some (scores : DataFrame ℝ) (pairs : List Pair)
    (df' : DataFrame ℝ) (hres : process_scores scores pairs = some df') :
    df'.rows = scores.rows ∧
    df'.cols = npUnique (collectReps pairs) ∧
    ∀ r c, df'.data r c =
      Real.logb 2 (clampOne (2 ^ (3 : ℕ) + scores.data r c)) - 3 := by
  rw [process_scores, selectCols] at hres
  by_cases hcond : ∀ c ∈ npUnique (collectReps pairs), c ∈ scores.cols
  · rw [if_pos hcond] at hres
    have h2 : some (mapValues (mapValues (mapValues
        { rows := scores.rows, cols := npUnique (collectReps pairs),
          data := scores.data }
        (fun v => 2 ^ (3 : ℕ) + v)) clampOne)
        (fun v => Real.logb 2 v - 3)) = some df' := hres
    rw [Option.some.injEq] at h2
    subst h2
    exact ⟨rfl, rfl, fun r c => rfl⟩
  · rw [if_neg hcond] at hres
    exact absurd hres (by simp)

theorem clampOne_eq_max (v : ℝ) : clampOne v = max 1 v := by
  rw [clampOne]
  rcases lt_or_le v 1 with h | h
  · rw [if_pos h, max_eq_left h.le]
  · rw [if_neg (not_lt.mpr h), max_eq_right h]

theorem one_le_clampOne (v : ℝ) : 1 ≤ clampOne v := by
  rw [clampOne]
  rcases lt_or_le v 1 with h | h
  · rw [if_pos h]
  · rw [if_neg (not_lt.mpr h)]
    exact h

/-- C1: For every score matrix and every pair list whose referenced
replicates all exist as columns, `process_scores` returns a matrix in which
each value equals `log2(max(1, v + 8)) - 3`, where `v` is the corresponding
value of the input matrix restricted to the referenced replicate columns;
the form `max(1, v + 8)` covers both the clamped case `v + 8 < 1` (result
`-3`) and large `v`. -/
theorem c1_process_scores_log_transform (scores : DataFrame ℝ)
    (pairs : List Pair) (df' : DataFrame ℝ)
    (hres : process_scores scores pairs = some df') (r c : String)
    (hr : r ∈ df'.rows) (hc : c ∈ df'.cols) :
    df'.data r c = Real.logb 2 (max 1 (scores.data r c + 8)) - 3 := by
  obtain ⟨-, -, hdata⟩ := process_scores_some scores pairs df' hres
  rw [hdata r c, clampOne_eq_max]
  rw [show (2 : ℝ) ^ (3 : ℕ) = 8 by norm_num, add_comm]

noncomputable def scoresW1 : DataFrame ℝ :=
  { rows := ["pep1"], cols := ["rA", "rB"], data := fun _ _ => 8 }

def pairsW1 : List Pair := [("rA", "rB")]

noncomputable def processedW1 : DataFrame ℝ :=
  { rows := scoresW1.rows,
    cols := npUnique (collectReps pairsW1),
    data := fun r c =>
      Real.logb 2 (clampOne (2 ^ (3 : ℕ) + scoresW1.data r c)) - 3 }

theorem c1_witness :
    process_scores scoresW1 pairsW1 = some processedW1 ∧
    "pep1" ∈ processedW1.rows ∧ "rA" ∈ processedW1.cols ∧
    processedW1.data "pep1" "rA" =
      Real.logb 2 (max 1 (scoresW1.data "pep1" "rA" + 8)) - 3 :=
  ⟨process_scores_eq scoresW1 pairsW1 (by decide), by decide, by decide,
   c1_process_scores_log_transform scoresW1 pairsW1 processedW1
     (process_scores_eq scoresW1 pairsW1 (by decide)) "pep1" "rA"
     (by decide) (by decide)⟩

/-- C4: For every score matrix and pair list, the matrix returned by
`process_scores` has as its column set exactly the de-duplicated union of
replicate names mentioned anywhere in the pair list, and no other columns,
regardless of pair order or of duplicate replicate mentions across pairs. -/
theorem c4_process_scores_columns (scores : DataFrame ℝ) (pairs : List Pair)
    (df' : DataFrame ℝ) (hres : process_scores scores pairs = some df') :
    (∀ c, c ∈ df'.cols ↔ ∃ p ∈ pairs, c = p.1 ∨ c = p.2) ∧
    df'.cols.Nodup := by
  obtain ⟨-, hcols, -⟩ := process_scores_some scores pairs df' hres
  rw [hcols]
  exact ⟨fun c => by rw [mem_npUnique, mem_collectReps], npUnique_nodup _⟩

noncomputable def scoresW4 : DataFrame ℝ :=
  { rows := ["pep1"], cols := ["rA", "rB", "rC"], data := fun _ _ => 1 }

def pairsW4 : List Pair := [("rB", "rA"), ("rA", "rC")]

noncomputable def processedW4 : DataFrame ℝ :=
  { rows := scoresW4.rows,
    cols := npUnique (collectReps pairsW4),
    data := fun r c =>
      Real.logb 2 (clampOne (2 ^ (3 : ℕ) + scoresW4.data r c)) - 3 }

theorem c4_witness :
    process_scores scoresW4 pairsW4 = some processedW4 ∧
    ((∀ c, c ∈ processedW4.cols ↔ ∃ p ∈ pairsW4, c = p.1 ∨ c = p.2) ∧
      processedW4.cols.Nodup) :=
  ⟨process_scores_eq scoresW4 pairsW4 (by decide),
   c4_process_scores_columns scoresW4 pairsW4 processedW4
     (process_scores_eq scoresW4 pairsW4 (by decide))⟩

/-- C5: For every pair list that mentions a replicate name absent from the
score matrix's columns, `process_scores` fails with a column-not-found
error — modelled as returning `none` — propagated from the underlying
column selection, not caught or transformed by this component. -/
theorem c5_missing_replicate_error (scores : DataFrame ℝ) (pairs : List Pair)
    (h : ∃ p ∈ pairs, p.1 ∉ scores.cols ∨ p.2 ∉ scores.cols) :
    process_scores scores pairs = none := by
  obtain ⟨p, hp, hmiss⟩ := h
  have hnot : ¬ ∀ c ∈ npUnique (collectReps pairs), c ∈ scores.cols := by
    intro hall
    rcases hmiss with hm | hm
    · exact hm (hall p.1 ((mem_npUnique _ _).mpr
        ((mem_collectReps _ _).mpr ⟨p, hp, Or.inl rfl⟩)))
    · exact hm (hall p.2 ((mem_npUnique _ _).mpr
        ((mem_collectReps _ _).mpr ⟨p, hp, Or.inr rfl⟩)))
  rw [process_scores, selectCols, if_neg hnot]
  rfl

noncomputable def scoresW5 : DataFrame ℝ :=
  { rows := ["pep1"], cols := ["rA"], data := fun _ _ => 0 }

def pairsW5 : List Pair := [("rA", "rB")]

theorem c5_witness :
    (∃ p ∈ pairsW5, p.1 ∉ scoresW5.cols ∨ p.2 ∉ scoresW5.cols) ∧
    process_scores scoresW5 pairsW5 = none :=
  ⟨by decide, c5_missing_replicate_error scoresW5 pairsW5 (by decide)⟩

/-- C10: In `process_scores`, every value passed to the logarithm is at
least `1` (any value below `1` after the `+8` offset is replaced by `1`),
so the logarithm step is total for every real input value and every value
of the returned matrix is at least `-3`. -/
theorem c10_log_input_clamped (scores : DataFrame ℝ) (pairs : List Pair)
    (df' : DataFrame ℝ) (hres : process_scores scores pairs = some df')
    (r c : String) :
    1 ≤ clampOne (2 ^ (3 : ℕ) + scores.data r c) ∧ -3 ≤ df'.data r c := by
  obtain ⟨-, -, hdata⟩ := process_scores_some scores pairs df' hres
  have h1 : 1 ≤ clampOne (2 ^ (3 : ℕ) + scores.data r c) := one_le_clampOne _
  refine ⟨h1, ?_⟩
  rw [hdata r c]
  have h0 : 0 ≤ Real.logb 2 (clampOne (2 ^ (3 : ℕ) + scores.data r c)) :=
    Real.logb_nonneg (by norm_num) h1
  linarith

noncomputable def scoresW10 : DataFrame ℝ :=
  { rows := ["pep1"], cols := ["rA", "rB"], data := fun _ _ => -20 }

def pairsW10 : List Pair := [("rA", "rB")]

noncomputable def processedW10 : DataFrame ℝ :=
  { rows := scoresW10.rows,
    cols := npUnique (collectReps pairsW10),
    data := fun r c =>
      Real.logb 2 (clampOne (2 ^ (3 : ℕ) + scoresW10.data r c)) - 3 }

theorem c10_witness :
    process_scores scoresW10 pairsW10 = some processedW10 ∧
    (1 ≤ clampOne (2 ^ (3 : ℕ) + scoresW10.data "pep1" "rA") ∧
      -3 ≤ processedW10.data "pep1" "rA") :=
  ⟨process_scores_eq scoresW10 pairsW10 (by decide),
   c10_log_input_clamped scoresW10 pairsW10 processedW10
     (process_scores_eq scoresW10 pairsW10 (by decide)) "pep1" "rA"⟩

/-- C2: For every call of `make_psea_table`, regardless of arguments, the
misspelled timing call `time.perf_couter()` raises an attribute error at
the start of the call (and the identical lookup at the end would raise the
same error if reached), so the elapsed-time logging path never executes
successfully. -/
theorem c2_timer_attribute_error (spline_type table_dir : String)
    (dirs : List String) :
    makePseaStart spline_type table_dir dirs
      = Except.error (PyError.attributeError "perf_couter") ∧
    getattrTime "perf_couter"
      = Except.error (PyError.attributeError "perf_couter") :=
  ⟨rfl, rfl⟩

/-- C3 evaluation: at the failing input `spline_type = "linear"` (or an
already existing `table_dir`) the call as written fails with the
`AttributeError` from the misspelled timer, not with a validation error;
the validation assertions themselves (psea.py lines 45-48), when reached,
do produce assertion errors naming the offending value or path before the
directory is created. -/
theorem c3_typo_preempts_validation :
    makePseaStart "linear" "./psea_table_outdir" []
      = Except.error (PyError.attributeError "perf_couter") ∧
    validateAndMkdir "linear" "./psea_table_outdir" []
      = Except.error (PyError.assertionError
          "'linear' is not a valid spline method!") ∧
    validateAndMkdir "r-smooth" "./psea_table_outdir" ["./psea_table_outdir"]
      = Except.error (PyError.assertionError
          "'./psea_table_outdir' already exists! Please move or remove this directory.") :=
  ⟨rfl, by decide, by decide⟩

/-- A spline collaborator used for concrete runs: returns `x` itself, which
satisfies the alignment contract `len(yfit) = len(x)`. -/
def identityFit : List Int → List Int → List Int := fun x _ => x

def dfC6 : DataFrame Int :=
  { rows := ["pep1"], cols := ["rA", "rB"], data := fun _ _ => 0 }

def pairsC6 : List Pair := [("rA", "rB"), ("rA", "rB")]

/-- C6 counterexample: with the duplicated input pair list
`[(rA,rB), (rA,rB)]` the persisted `used_pairs` list contains the pair
twice — the loop appends every processed pair without de-duplication, so
"each distinct pair appears exactly once" is false. -/
theorem c6_counterexample :
    (makePseaBody identityFit dfC6 pairsC6 "" "outdir").map
        (fun r => (r.state.usedPairs, r.state.usedPairs.count ("rA", "rB")))
      = Except.ok ([("rA", "rB"), ("rA", "rB")], 2) := by
  decide

/-- C6 (amended): the list of processed pairs persisted as `used_pairs` is
exactly the input pairs list — order-preserving, with duplicates retained
(a pair occurring k times in the input appears k times). -/
theorem c6_used_pairs_equal_input {α : Type} [LinearOrder α]
    (splineFit : List α → List α → List α) (df : DataFrame α)
    (pairs : List Pair) (stf td : String) (res : BodyResult α)
    (h : makePseaBody splineFit df pairs stf td = Except.ok res) :
    res.state.usedPairs = pairs := by
  obtain ⟨hfold, -, -⟩ := makePseaBody_ok splineFit df pairs stf td res h
  obtain ⟨-, -, -, hu, -⟩ :=
    foldlM_loopStep_ok splineFit df pairs (initState α) res.state hfold
  simpa [initState] using hu

def dfBodyW : DataFrame Int :=
  { rows := ["pep1"], cols := ["rA", "rB"], data := fun _ _ => 0 }

def pairsBodyW : List Pair := [("rA", "rB")]

def resBodyW : BodyResult Int :=
  { state :=
      { x := [0], y := [0], pairLabels := ["rA~rB"],
        usedPairs := [("rA", "rB")], titles := ["rA~rB"] },
    zscatterArgs :=
      { pairsFileName := "used_pairs.tsv",
        splineFileName := "spline_data.tsv",
        pValAccess := "p.adjust",
        lePepsAccess := "core_enrichment",
        taxaAccess := "ID",
        highlightData := "outdir" },
    volcanoArgs :=
      { xyDir := "outdir",
        xyAccess := ["NES", "p.adjust"],
        taxaAccess := "ID",
        xyLabels := ["Enrichment score", "Adjusted p-values"],
        titles := ["rA~rB"] } }

theorem c6_witness :
    makePseaBody identityFit dfBodyW pairsBodyW "" "outdir"
      = Except.ok resBodyW ∧
    resBodyW.state.usedPairs = pairsBodyW :=
  ⟨by decide,
   c6_used_pairs_equal_input identityFit dfBodyW pairsBodyW "" "outdir"
     resBodyW (by decide)⟩

/-- C7: For every call of the table builder body, the taxon-identifier
column name is "species_name" when `species_taxa_file` is a non-empty
string and "ID" otherwise, and that same resolved name is the
`taxa_access` argument passed to both the `zscatter` and `volcano`
visualization actions. -/
theorem c7_taxa_access_resolution {α : Type} [LinearOrder α]
    (splineFit : List α → List α → List α) (df : DataFrame α)
    (pairs : List Pair) (stf td : String) (res : BodyResult α)
    (h : makePseaBody splineFit df pairs stf td = Except.ok res) :
    res.zscatterArgs.taxaAccess
      = (if stf = "" then "ID" else "species_name") ∧
    res.volcanoArgs.taxaAccess
      = (if stf = "" then "ID" else "species_name") := by
  obtain ⟨-, hz, hv⟩ := makePseaBody_ok splineFit df pairs stf td res h
  rw [hz, hv]
  exact ⟨rfl, rfl⟩

theorem c7_witness :
    makePseaBody identityFit dfBodyW pairsBodyW "" "outdir"
      = Except.ok resBodyW ∧
    (resBodyW.zscatterArgs.taxaAccess
        = (if "" = "" then "ID" else "species_name") ∧
      resBodyW.volcanoArgs.taxaAccess
        = (if "" = "" then "ID" else "species_name")) :=
  ⟨by decide,
   c7_taxa_access_resolution identityFit dfBodyW pairsBodyW "" "outdir"
     resBodyW (by decide)⟩

def dfC8 : DataFrame Int :=
  { rows := ["pep1"], cols := ["a~b", "c", "a", "b~c"], data := fun _ _ => 0 }

def pairsC8 : List Pair := [("a~b", "c"), ("a", "b~c")]

/-- C8 counterexample: the two distinct pairs `(a~b, c)` and `(a, b~c)`
produce the same label "a~b~c", so the rows of the accumulated Spline Fit
Record carrying that label do not belong to exactly one processed pair:
both processed pairs match it. -/
theorem c8_counterexample :
    (makePseaBody identityFit dfC8 pairsC8 "" "outdir").map
        (fun r => (r.state.pairLabels, r.state.usedPairs,
          (r.state.usedPairs.map pairLabel).count "a~b~c"))
      = Except.ok (["a~b~c", "a~b~c"], [("a~b", "c"), ("a", "b~c")], 2) := by
  decide

/-- C8 (amended): after the per-pair loop, the accumulated Spline Fit
Record's three sequences have equal length; that length equals the sum over
all processed pairs of that pair's row count in the restricted/filtered
matrix; every row's pair label is the label of at least one processed pair,
and of exactly one whenever distinct processed pairs have distinct labels. -/
theorem c8_spline_record_invariants {α : Type} [LinearOrder α]
    (splineFit : List α → List α → List α) (df : DataFrame α)
    (pairs : List Pair) (stf td : String) (res : BodyResult α)
    (hfit : ∀ x y : List α, (splineFit x y).length = x.length)
    (h : makePseaBody splineFit df pairs stf td = Except.ok res) :
    res.state.x.length = res.state.y.length ∧
    res.state.pairLabels.length = res.state.x.length ∧
    res.state.pairLabels.length =
      (res.state.usedPairs.map (fun p => (sortedRows df p.1).length)).sum ∧
    (∀ l ∈ res.state.pairLabels, ∃ p ∈ res.state.usedPairs, pairLabel p = l) ∧
    ((res.state.usedPairs.map pairLabel).Nodup →
      ∀ l ∈ res.state.pairLabels,
        (res.state.usedPairs.map pairLabel).count l = 1) := by
  obtain ⟨hfold, -, -⟩ := makePseaBody_ok splineFit df pairs stf td res h
  obtain ⟨hx, hy, hl, hu, -⟩ :=
    foldlM_loopStep_ok splineFit df pairs (initState α) res.state hfold
  simp only [initState, List.nil_append] at hx hy hl hu
  have hxlen : res.state.x.length =
      (pairs.map (fun p => (colValues df p p.1).length)).sum := by
    rw [hx, List.length_flatten, List.map_map]
    rfl
  have hylen : res.state.y.length =
      (pairs.map (fun p => (colValues df p p.1).length)).sum := by
    rw [hy, List.length_flatten, List.map_map]
    congr 1
    refine List.map_congr_left ?_
    intro p _
    exact hfit _ _
  have hllen : res.state.pairLabels.length =
      (pairs.map (fun p => (colValues df p p.1).length)).sum := by
    rw [hl, List.length_flatten, List.map_map]
    congr 1
    refine List.map_congr_left ?_
    intro p _
    exact List.length_replicate _ _
  refine ⟨by rw [hxlen, hylen], by rw [hllen, hxlen], ?_, ?_, ?_⟩
  · rw [hllen, hu]
    congr 1
    refine List.map_congr_left ?_
    intro p _
    rw [colValues, List.length_map]
  · intro l hlmem
    rw [hl] at hlmem
    rw [List.mem_flatten] at hlmem
    obtain ⟨sub, hsub, hlsub⟩ := hlmem
    rw [List.mem_map] at hsub
    obtain ⟨p, hp, rfl⟩ := hsub
    exact ⟨p, by rw [hu]; exact hp, (List.eq_of_mem_replicate hlsub).symm⟩
  · intro hnodup l hlmem
    rw [hl] at hlmem
    rw [List.mem_flatten] at hlmem
    obtain ⟨sub, hsub, hlsub⟩ := hlmem
    rw [List.mem_map] at hsub
    obtain ⟨p, hp, rfl⟩ := hsub
    have hlab : l ∈ res.state.usedPairs.map pairLabel := by
      rw [hu]
      exact List.mem_map.mpr ⟨p, hp, (List.eq_of_mem_replicate hlsub).symm⟩
    exact List.count_eq_one_of_mem hnodup hlab

theorem c8_witness :
    (∀ x y : List Int, (identityFit x y).length = x.length) ∧
    makePseaBody identityFit dfBodyW pairsBodyW "" "outdir"
      = Except.ok resBodyW ∧
    resBodyW.state.x.length = resBodyW.state.y.length :=
  ⟨fun _ _ => rfl, by decide,
   (c8_spline_record_invariants identityFit dfBodyW pairsBodyW "" "outdir"
     resBodyW (fun _ _ => rfl) (by decide)).1⟩

theorem zipWith_getElem?_eq {α β γ : Type} (f : α → β → γ) :
    ∀ (l₁ : List α) (l₂ : List β) (i : ℕ) (a : α) (b : β),
      l₁[i]? = some a → l₂[i]? = some b →
      (List.zipWith f l₁ l₂)[i]? = some (f a b) := by
  intro l₁
  induction l₁ with
  | nil =>
      intro l₂ i a b h₁ h₂
      simp at h₁
  | cons x xs ih =>
      intro l₂ i a b h₁ h₂
      cases l₂ with
      | nil => simp at h₂
      | cons y ys =>
          cases i with
          | zero =>
              simp only [List.getElem?_cons_zero, Option.some.injEq] at h₁ h₂
              subst h₁
              subst h₂
              simp [List.zipWith]
          | succ n =>
              simp only [List.getElem?_cons_succ] at h₁ h₂
              simpa [List.zipWith] using ih ys n a b h₁ h₂

/-- C9: For every processed pair, the `maxZ` series (row-wise maximum of
the pair's two columns) and the `deltaZ` series (`y - yfit`) are both
indexed by the feature identifiers of the same sorted-by-baseline row
selection, so the two series are aligned by feature identifier, not merely
by position: the value at position `i` of each series is the value
belonging to the feature identifier at position `i` of that shared index. -/
theorem c9_series_alignment {α : Type} [LinearOrder α] [Sub α]
    (splineFit : List α → List α → List α) (df : DataFrame α) (p : Pair)
    (i : ℕ) (r : String) (w : α)
    (hr : (sortedRows df p.1)[i]? = some r)
    (hw : (splineFit (colValues df p p.1) (colValues df p p.2))[i]? = some w) :
    (maxZSeries df p).index = sortedRows df p.1 ∧
    (deltaZSeries splineFit df p).index = sortedRows df p.1 ∧
    (maxZSeries df p).data[i]? = some (max (df.data r p.1) (df.data r p.2)) ∧
    (deltaZSeries splineFit df p).data[i]? = some (df.data r p.2 - w) ∧
    (maxZSeries df p).data.length = (maxZSeries df p).index.length := by
  refine ⟨rfl, rfl, ?_, ?_, by rw [maxZSeries, List.length_map]⟩
  · show ((sortedRows df p.1).map
      (fun r => max (df.data r p.1) (df.data r p.2)))[i]? = _
    rw [List.getElem?_map, hr]
    rfl
  · show (List.zipWith (fun a b => a - b) (colValues df p p.2)
      (splineFit (colValues df p p.1) (colValues df p p.2)))[i]? = _
    refine zipWith_getElem?_eq _ _ _ _ _ _ ?_ hw
    rw [colValues, List.getElem?_map, hr]
    rfl

def dfC9 : DataFrame Int :=
  { rows := ["r1", "r2"], cols := ["a", "b"],
    data := fun r c =>
      if r = "r1" then (if c = "a" then 5 else 1)
      else (if c = "a" then 2 else 7) }

theorem c9_witness :
    (sortedRows dfC9 "a")[0]? = some "r2" ∧
    (identityFit (colValues dfC9 ("a", "b") "a")
      (colValues dfC9 ("a", "b") "b"))[0]? = some 2 ∧
    (maxZSeries dfC9 ("a", "b")).data[0]?
      = some (max (dfC9.data "r2" "a") (dfC9.data "r2" "b")) ∧
    (deltaZSeries identityFit dfC9 ("a", "b")).data[0]?
      = some (dfC9.data "r2" "b" - 2) :=
  ⟨by decide, by decide,
   (c9_series_alignment identityFit dfC9 ("a", "b") 0 "r2" 2
     (by decide) (by decide)).2.2.1,
   (c9_series_alignment identityFit dfC9 ("a", "b") 0 "r2" 2
     (by decide) (by decide)).2.2.2.1⟩

end Q2PSEA
